import Mathlib

/-!
Verification development for the BayStateScraper desktop shell
(`src-tauri/src/storage.rs`, `src-tauri/src/keychain.rs`,
`src-tauri/src/commands.rs`).

The Rust code is I/O glue: it reads and writes a JSON settings file,
stores one API key in the OS keychain, supervises an external installer
process, and exposes command wrappers.  We embed it shallowly:

* the filesystem state relevant to the settings file is a `FileState`
  (absent / unreadable / unparseable text / a JSON document); the JSON
  text layer itself (serde_json's lexer and printer) is external crate
  code and is modelled at the level of JSON values (`Json`), with the
  derived `Serialize`/`Deserialize` instances for `AppSettings`
  translated as `AppSettings.toJson` / `AppSettings.fromJson`;
* fallible OS operations (directory creation + file write, keychain
  backend access, process spawn/wait, exit status) become explicit
  boolean parameters of the embedded functions, and Rust `Result`
  becomes `Except`;
* the hostname probe `whoami::fallible::hostname()` becomes an
  `Option String` parameter.
-/

/-- JSON values, the level at which serde_json hands documents to the
derived (de)serializers. -/
inductive Json where
  | null : Json
  | bool (b : Bool) : Json
  | num (q : ℚ) : Json
  | str (s : String) : Json
  | arr (xs : List Json) : Json
  | obj (fields : List (String × Json)) : Json

/-- `struct AppSettings` from storage.rs (lines 8-16). -/
structure AppSettings where
  api_url : String
  runner_name : String
  headless : Bool
  auto_update : Bool
  first_run_complete : Bool
  chromium_installed : Bool
deriving DecidableEq

/-- `impl Default for AppSettings` (storage.rs lines 18-29).
`hostname` is the result of `whoami::fallible::hostname()`:
`none` models the lookup failing. -/
def default_settings (hostname : Option String) : AppSettings :=
  { api_url := "https://app.baystatepet.com"
    runner_name := hostname.getD "Desktop Runner"
    headless := true
    auto_update := true
    first_run_complete := false
    chromium_installed := false }

/-- Read a JSON string field. -/
def Json.asStr : Json → Option String
  | .str s => some s
  | _ => none

/-- Read a JSON boolean field. -/
def Json.asBool : Json → Option Bool
  | .bool b => some b
  | _ => none

/-- Derived `Serialize` for `AppSettings`: an object with the six fields
in declaration order (what `serde_json::to_string_pretty` emits,
viewed as a JSON value). -/
def AppSettings.toJson (s : AppSettings) : Json :=
  .obj [("api_url", .str s.api_url),
        ("runner_name", .str s.runner_name),
        ("headless", .bool s.headless),
        ("auto_update", .bool s.auto_update),
        ("first_run_complete", .bool s.first_run_complete),
        ("chromium_installed", .bool s.chromium_installed)]

/-- Derived `Deserialize [de]` for `AppSettings`: requires all six fields
with the right types, ignores unknown fields (serde's default). -/
def AppSettings.fromJson : Json → Option AppSettings
  | .obj fields => do
      let api_url ← (fields.lookup "api_url").bind Json.asStr
      let runner_name ← (fields.lookup "runner_name").bind Json.asStr
      let headless ← (fields.lookup "headless").bind Json.asBool
      let auto_update ← (fields.lookup "auto_update").bind Json.asBool
      let first_run_complete ← (fields.lookup "first_run_complete").bind Json.asBool
      let chromium_installed ← (fields.lookup "chromium_installed").bind Json.asBool
      pure { api_url, runner_name, headless, auto_update,
             first_run_complete, chromium_installed }
  | _ => none

/-- The on-disk state of `settings.json`:
`absent`/`unreadable` make `fs::read_to_string` fail, `notJson` is text
that `serde_json::from_str` rejects, `json j` is text that parses to
the JSON value `j`. -/
inductive FileState where
  | absent : FileState
  | unreadable : FileState
  | notJson : FileState
  | json (j : Json) : FileState

/-- The environment a storage call runs in: the hostname probe, the
settings file, and whether directory creation + file writes succeed
(`writeOk := false` models `create_dir_all` or `fs::write` failing). -/
structure Env where
  hostname : Option String
  file : FileState
  writeOk : Bool

/-- `fs::read_to_string(..).ok().and_then(|s| serde_json::from_str(&s).ok())`
(storage.rs lines 49-51). -/
def readParse : FileState → Option AppSettings
  | .absent => none
  | .unreadable => none
  | .notJson => none
  | .json j => AppSettings.fromJson j

/-- `load_settings` (storage.rs lines 47-53): read, parse,
`unwrap_or_default()`. -/
def load_settings (env : Env) : AppSettings :=
  (readParse env.file).getD (default_settings env.hostname)

/-- `save_settings` (storage.rs lines 56-67): create the app-data
directory, serialize, write.  Serialization of a well-formed document
cannot fail; directory-creation and write failure are both modelled by
`writeOk = false`. -/
def save_settings (settings : AppSettings) (env : Env) : Except String Env :=
  if env.writeOk then
    .ok { env with file := .json (AppSettings.toJson settings) }
  else
    .error "Failed to write settings"

/-- `update_settings` (storage.rs lines 70-78): load, mutate, save,
return the mutated document (paired here with the resulting
environment, which Rust keeps implicit in the filesystem). -/
def update_settings (f : AppSettings → AppSettings) (env : Env) :
    Except String (AppSettings × Env) :=
  let settings := f (load_settings env)
  match save_settings settings env with
  | .ok env2 => .ok (settings, env2)
  | .error e => .error e

/-! ## Keychain adapter (keychain.rs) -/

/-- `SERVICE_NAME` (keychain.rs line 4). -/
def SERVICE_NAME : String := "com.baystate.scraper"

/-- `API_KEY_ACCOUNT` (keychain.rs line 5). -/
def API_KEY_ACCOUNT : String := "api_key"

/-- `enum KeychainError` (keychain.rs lines 7-15). -/
inductive KeychainError where
  | access (msg : String) : KeychainError
  | notFound : KeychainError
  | store (msg : String) : KeychainError
deriving DecidableEq

/-- The thiserror-derived `Display`, used by `From<KeychainError> for
String` (keychain.rs lines 9-20). -/
def KeychainError.toString : KeychainError → String
  | .access m => "Keychain access error: " ++ m
  | .notFound => "Key not found"
  | .store m => "Failed to store key: " ++ m

/-- The OS secret store: a table from (service, account) pairs to
secrets, plus whether the backend is reachable at all (`accessOk :=
false` models `Entry::new` or the password operations failing at the
platform level). -/
structure Keychain where
  entries : List ((String × String) × String)
  accessOk : Bool
deriving DecidableEq

/-- Look up the secret stored under a (service, account) pair. -/
def kcLookup (kc : Keychain) (svc acct : String) : Option String :=
  kc.entries.lookup (svc, acct)

/-- Set the secret under a (service, account) pair, overwriting any
existing value. -/
def kcInsert (kc : Keychain) (svc acct secret : String) : Keychain :=
  { kc with entries :=
      ((svc, acct), secret) :: kc.entries.filter (fun e => !(e.1 == (svc, acct))) }

/-- Remove the entry under a (service, account) pair. -/
def kcRemove (kc : Keychain) (svc acct : String) : Keychain :=
  { kc with entries := kc.entries.filter (fun e => !(e.1 == (svc, acct))) }

/-- `store_api_key` (keychain.rs lines 27-34): `Entry::new` then
`set_password`, which overwrites any previous value. -/
def store_api_key (key : String) (kc : Keychain) : Except KeychainError Keychain :=
  if kc.accessOk then
    .ok (kcInsert kc SERVICE_NAME API_KEY_ACCOUNT key)
  else
    .error (.access "platform secure storage unavailable")

/-- `get_api_key` (keychain.rs lines 37-53): `get_password`; a missing
entry is classified as `NotFound` by the error-text scan, any other
backend failure as `Access`. -/
def get_api_key (kc : Keychain) : Except KeychainError String :=
  if kc.accessOk then
    match kcLookup kc SERVICE_NAME API_KEY_ACCOUNT with
    | some v => .ok v
    | none => .error .notFound
  else
    .error (.access "platform secure storage unavailable")

/-- `delete_api_key` (keychain.rs lines 56-63): `delete_credential`;
the keyring backend errors when the entry is already absent, which the
code maps to the `Store` error kind. -/
def delete_api_key (kc : Keychain) : Except KeychainError Keychain :=
  if kc.accessOk then
    match kcLookup kc SERVICE_NAME API_KEY_ACCOUNT with
    | some _ => .ok (kcRemove kc SERVICE_NAME API_KEY_ACCOUNT)
    | none => .error (.store "No matching entry found in secure storage")
  else
    .error (.access "platform secure storage unavailable")

/-- `has_api_key` (keychain.rs lines 66-68): `get_api_key().is_ok()`. -/
def has_api_key (kc : Keychain) : Bool :=
  (get_api_key kc).isOk

/-- Rust `str::starts_with` on strings, as used by `save_api_key`. -/
def startsWithCL : List Char → List Char → Bool
  | _, [] => true
  | [], _ :: _ => false
  | a :: as, b :: bs => a == b && startsWithCL as bs

/-- `key.starts_with("bsr_")` etc. -/
def rustStartsWith (s pre : String) : Bool :=
  startsWithCL s.data pre.data

/-- `save_api_key` command (commands.rs lines 83-89): reject keys not
starting with `"bsr_"`, otherwise delegate to the keychain adapter. -/
def save_api_key (key : String) (kc : Keychain) : Except String Keychain :=
  if !(rustStartsWith key "bsr_") then
    .error "API key must start with 'bsr_'"
  else
    (store_api_key key kc).mapError KeychainError.toString

/-! ## Settings commands (commands.rs) -/

/-- `struct Settings` (commands.rs lines 40-46): the four fields the
front end may edit. -/
structure Settings where
  api_url : String
  runner_name : String
  headless : Bool
  auto_update : Bool
deriving DecidableEq

/-- `save_settings` command (commands.rs lines 98-107): read-modify-write
through `update_settings`, assigning exactly the four editable fields. -/
def save_settings_cmd (settings : Settings) (env : Env) : Except String Env :=
  match update_settings (fun s =>
      { s with api_url := settings.api_url,
               runner_name := settings.runner_name,
               headless := settings.headless,
               auto_update := settings.auto_update }) env with
  | .ok p => .ok p.2
  | .error e => .error e

/-! ## check_chromium_installed (commands.rs lines 244-258) -/

/-- The state of the browsers install directory:
`missing` makes `Path::exists` false; `unreadable` exists but
`read_dir` errors; `withEntries n` exists and `read_dir` yields `n`
entries. -/
inductive DirState where
  | missing : DirState
  | unreadable : DirState
  | withEntries (n : Nat) : DirState
deriving DecidableEq

/-- `check_chromium_installed` (commands.rs lines 244-258): false when
the persisted flag is false; otherwise
`dir.exists() && read_dir().map(|mut d| d.next().is_some()).unwrap_or(false)`.
The Rust command wraps this in `Ok(..)` and never errors. -/
def check_chromium_installed (env : Env) (dir : DirState) : Bool :=
  if !(load_settings env).chromium_installed then
    false
  else
    match dir with
    | .missing => false
    | .unreadable => false
    | .withEntries n => decide (0 < n)

/-! ## run_scraper (commands.rs lines 299-330) -/

/-- `struct ScrapeResult` (commands.rs lines 48-54). -/
structure ScrapeResult where
  success : Bool
  products_found : Int
  errors : List String
  logs : List String
deriving DecidableEq

/-- Rust `usize as i32`: wrap modulo 2^32 and reinterpret as signed. -/
def i32Cast (n : Nat) : Int :=
  let r := n % 4294967296
  if r < 2147483648 then (r : Int) else (r : Int) - 4294967296

/-- `run_scraper` (commands.rs lines 299-330): loads settings, fetches
the credential with `unwrap_or_default`, assembles the config and args
payloads into unused locals, then — per the `TODO: Call sidecar binary`
comment — returns a hard-coded mock result without ever invoking the
external scraping subsystem. -/
def run_scraper (scraper_name : String) (skus : List String) (env : Env)
    (kc : Keychain) : Except String ScrapeResult :=
  let settings := load_settings env
  let api_key := (get_api_key kc).toOption.getD ""
  let _config := Json.obj [("api_url", .str settings.api_url),
                           ("api_key", .str api_key),
                           ("runner_name", .str settings.runner_name),
                           ("headless", .bool settings.headless)]
  let _args := Json.obj [("scraper_name", .str scraper_name),
                         ("skus", .arr (skus.map Json.str))]
  .ok { success := true
        products_found := i32Cast skus.length
        errors := []
        logs := ["Scraper started"] }

/-! ## Installer supervisor (commands.rs lines 151-241)

`install_chromium` streams the child's stderr line by line, updating a
`u8` progress estimate per line and emitting one event per line, then a
terminal event driven by the exit status. -/

/-- Rust `char::is_whitespace` restricted to the ASCII whitespace the
installer output can contain (Unicode-only whitespace is not
modelled). -/
def isWsChar (c : Char) : Bool :=
  c == ' ' || c == '\t' || c == '\n' || c == '\r'

/-- Rust `str::split_whitespace`: maximal non-whitespace runs, empties
skipped.  `acc` holds the current word reversed. -/
def splitWsCL (acc : List Char) : List Char → List String
  | [] => if acc.isEmpty then [] else [String.mk acc.reverse]
  | c :: cs =>
      if isWsChar c then
        if acc.isEmpty then splitWsCL [] cs
        else String.mk acc.reverse :: splitWsCL [] cs
      else splitWsCL (c :: acc) cs

/-- `line.split_whitespace()` as a list of words. -/
def splitWs (s : String) : List String :=
  splitWsCL [] s.data

/-- `word.ends_with('%')`. -/
def endsWithPercentCL (w : List Char) : Bool :=
  match w.getLast? with
  | some c => c == '%'
  | none => false

/-- `word.trim_end_matches('%')`: drop every trailing `'%'`. -/
def trimPercentCL (w : List Char) : List Char :=
  (w.reverse.dropWhile (fun c => c == '%')).reverse

/-- Case-insensitive whole-word match (for the `inf`/`infinity`/`nan`
forms accepted by Rust's float parser). -/
def matchCI : List Char → List Char → Bool
  | [], [] => true
  | a :: as, b :: bs => (a.toLower == b.toLower) && matchCI as bs
  | _, _ => false

/-- Numeric value of a digit run. -/
def digitsVal (ds : List Char) : Nat :=
  ds.foldl (fun a c => 10 * a + (c.toNat - '0'.toNat)) 0

/-- The result of Rust's `f32::from_str`.  A finite literal is kept as
its decimal components — sign, mantissa digits value `m`, number of
fraction digits `fracLen`, exponent `e` — denoting the exact value
`±m * 10^(e - fracLen)`; the final rounding to binary f32 is not
modelled (it can only shift values within about 2^-24 relative error,
which never crosses the truncation boundaries the code's `as u8` cast
looks at for the inputs the spec discusses). -/
inductive F32 where
  | nan : F32
  | inf (neg : Bool) : F32
  | dec (neg : Bool) (m fracLen : Nat) (e : ℤ) : F32
deriving DecidableEq

/-- Exponent part of a float literal: `('e'|'E')` already consumed,
parse `Sign? Digits` to the end of the word. -/
def parseExpCL (cs : List Char) : Option ℤ :=
  let sp : Bool × List Char :=
    match cs with
    | '+' :: t => (false, t)
    | '-' :: t => (true, t)
    | t => (false, t)
  let ds := List.takeWhile Char.isDigit sp.2
  let rest := List.dropWhile Char.isDigit sp.2
  if ds.isEmpty || !rest.isEmpty then none
  else some (if sp.1 then -(digitsVal ds : ℤ) else (digitsVal ds : ℤ))

/-- `Digits '.'? Digits? Exp?` with at least one mantissa digit,
consuming the whole word (Rust's grammar for finite float literals). -/
def parseNumberCL (cs : List Char) (neg : Bool) : Option F32 :=
  let intDs := List.takeWhile Char.isDigit cs
  let r1 := List.dropWhile Char.isDigit cs
  let frac : List Char × List Char :=
    match r1 with
    | '.' :: t => (List.takeWhile Char.isDigit t, List.dropWhile Char.isDigit t)
    | _ => ([], r1)
  let fracDs := frac.1
  let r2 := frac.2
  if intDs.isEmpty && fracDs.isEmpty then none
  else
    let mkVal : ℤ → F32 := fun e =>
      .dec neg (digitsVal (intDs ++ fracDs)) fracDs.length e
    match r2 with
    | [] => some (mkVal 0)
    | 'e' :: t => (parseExpCL t).map mkVal
    | 'E' :: t => (parseExpCL t).map mkVal
    | _ => none

/-- Rust `f32::from_str`: optional sign, then `inf`, `infinity`, `nan`
(case-insensitive) or a decimal number, consuming the whole string. -/
def parseF32CL (cs : List Char) : Option F32 :=
  let sp : Bool × List Char :=
    match cs with
    | '+' :: t => (false, t)
    | '-' :: t => (true, t)
    | t => (false, t)
  if matchCI sp.2 "inf".data || matchCI sp.2 "infinity".data then some (.inf sp.1)
  else if matchCI sp.2 "nan".data then some .nan
  else parseNumberCL sp.2 sp.1

/-- Rust `num_str.parse::<f32>()`. -/
def parseF32 (s : String) : Option F32 :=
  parseF32CL s.data

/-- Rust `num as u8` on an f32: NaN to 0, truncation toward zero,
saturation into `[0, 255]`.  A negative or zero value truncates and
saturates to 0; a non-negative decimal `m * 10^(e - fracLen)` truncates
to `m * 10^k` or `m / 10^(-k)` for `k = e - fracLen`.  (f32 overflow to
infinity and underflow to zero saturate to the same results.) -/
def f32AsU8 : F32 → Nat
  | .nan => 0
  | .inf neg => if neg then 0 else 255
  | .dec neg m fracLen e =>
      if neg then 0
      else
        let k : ℤ := e - (fracLen : ℤ)
        if 0 ≤ k then min (m * 10 ^ k.toNat) 255
        else min (m / 10 ^ (-k).toNat) 255

/-- `extract_percentage` (commands.rs lines 230-241): the first
whitespace word ending in `'%'` whose `'%'`-stripped prefix parses as a
float yields `Some(num as u8)`; words that end in `'%'` but fail to
parse are skipped and the scan continues. -/
def extract_percentage (line : String) : Option Nat :=
  (splitWs line).findSome? fun w =>
    if endsWithPercentCL w.data then
      (parseF32CL (trimPercentCL w.data)).map f32AsU8
    else
      none

/-- Rust `str::contains` for a literal pattern: some suffix of the text
starts with the pattern. -/
def hasSubstrCL (pat : List Char) : List Char → Bool
  | [] => startsWithCL [] pat
  | c :: cs => startsWithCL (c :: cs) pat || hasSubstrCL pat cs

/-- `line.contains(pat)`. -/
def hasSubstr (s pat : String) : Bool :=
  hasSubstrCL pat.data s.data

/-- The per-line estimate update in the streaming loop (commands.rs
lines 183-194).  The source computes
`(10 + (pct as f32 * 0.8) as u8).min(90)`; for every `pct : u8`,
`(pct as f32) * 0.8f32` truncates to `⌊0.8 * pct⌋` (the product is
within `3e-6` of `0.8 * pct`, and rounding to f32 never crosses an
integer boundary there), so the update is `min (10 + 4 * pct / 5) 90`
in exact arithmetic, with no `u8` overflow since `4 * 255 / 5 = 204`. -/
def progress_update (line : String) (progress : Nat) : Nat :=
  if hasSubstr line "Downloading" then 10
  else if hasSubstr line "%" then
    match extract_percentage line with
    | some pct => min (10 + 4 * pct / 5) 90
    | none => progress
  else if hasSubstr line "Extracting" || hasSubstr line "Installing" then 95
  else progress

/-- The per-line update as claim C3 words it: `Downloading` first, then
"a line containing a whitespace-delimited token ending in `'%'` whose
prefix parses as a float", then `Extracting`/`Installing`, else
unchanged.  (Refinement comparison: to be measured against
`progress_update`, the translation of the source.) -/
def progress_update_claimed (line : String) (progress : Nat) : Nat :=
  if hasSubstr line "Downloading" then 10
  else
    match extract_percentage line with
    | some pct => min (10 + 4 * pct / 5) 90
    | none =>
        if hasSubstr line "Extracting" || hasSubstr line "Installing" then 95
        else progress

/-- `struct ChromiumProgress` (commands.rs lines 56-61); `progress` is
a `u8`. -/
structure ChromiumProgress where
  progress : Nat
  status : String
  message : String
deriving DecidableEq

/-- The events emitted by the `while let` loop over stderr lines
(commands.rs lines 183-201): one `"downloading"` event per line,
carrying the raw line and the estimate current after that line. -/
def stream_events (p : Nat) : List String → List ChromiumProgress
  | [] => []
  | l :: ls =>
      ⟨progress_update l p, "downloading", l⟩ :: stream_events (progress_update l p) ls

/-- The estimate after folding the per-line update over a line list. -/
def progress_after (p : Nat) (lines : List String) : Nat :=
  lines.foldl (fun q l => progress_update l q) p

/-- A terminal event of the install lifecycle. -/
def isTerminal (e : ChromiumProgress) : Bool :=
  e.status == "complete" || e.status == "error"

/-- `install_chromium` (commands.rs lines 154-228).  Environment
failures become parameters: `dirCreateOk` is `create_dir_all` on the
browsers directory, `spawnOk` the process spawn, `lines` the stderr
lines streamed before EOF, `waitOk` the `wait()` call, `exitSuccess`
the child's exit status.  Returns the emitted event sequence and the
command's result (the error strings elide the formatted OS error the
source appends). -/
def install_chromium (env : Env) (dirCreateOk spawnOk : Bool)
    (lines : List String) (waitOk exitSuccess : Bool) :
    List ChromiumProgress × Except String Env :=
  if !dirCreateOk then ([], .error "Failed to create browsers directory")
  else
    let startEvt : ChromiumProgress := ⟨0, "starting", "Starting Chromium download..."⟩
    if !spawnOk then ([startEvt], .error "Failed to start playwright install")
    else
      let evts := startEvt :: stream_events 0 lines
      if !waitOk then (evts, .error "Failed to wait for playwright install")
      else if exitSuccess then
        match update_settings (fun s => { s with chromium_installed := true }) env with
        | .ok p => (evts ++ [⟨100, "complete", "Chromium installed successfully!"⟩], .ok p.2)
        | .error e => (evts, .error e)
      else
        (evts ++ [⟨0, "error", "Chromium installation failed"⟩],
         .error "Chromium installation failed")


/-! ## Theorems -/

/-- Serialize-then-deserialize is the identity on settings documents. -/
theorem fromJson_toJson (d : AppSettings) :
    AppSettings.fromJson (AppSettings.toJson d) = some d := rfl

/-- C1: for every on-disk state of the settings file (absent,
unreadable, or malformed JSON — including well-formed JSON of the wrong
shape), `load_settings` returns the default-constructed document; when
the file holds a document that deserializes, it returns exactly that
document.  `load_settings` is a total function, so it can never
propagate an error. -/
theorem load_settings_total_spec (env : Env) :
    (env.file = .absent ∨ env.file = .unreadable ∨ env.file = .notJson →
      load_settings env = default_settings env.hostname) ∧
    (∀ j, env.file = .json j → AppSettings.fromJson j = none →
      load_settings env = default_settings env.hostname) ∧
    (∀ j d, env.file = .json j → AppSettings.fromJson j = some d →
      load_settings env = d) := by
  refine ⟨?_, ?_, ?_⟩
  · rintro (h | h | h) <;> simp [load_settings, readParse, h]
  · intro j hj hnone
    simp [load_settings, readParse, hj, hnone]
  · intro j d hj hsome
    simp [load_settings, readParse, hj, hsome]

/-- Witness for C1 at concrete file states. -/
theorem load_settings_total_spec_witness :
    load_settings ⟨none, .absent, true⟩ = default_settings none ∧
    load_settings ⟨some "host-a", .notJson, true⟩ = default_settings (some "host-a") ∧
    load_settings ⟨none, .json (AppSettings.toJson (default_settings (some "pc"))), true⟩ =
      default_settings (some "pc") := by
  refine ⟨?_, ?_, ?_⟩
  · exact (load_settings_total_spec ⟨none, .absent, true⟩).1 (Or.inl rfl)
  · exact (load_settings_total_spec ⟨some "host-a", .notJson, true⟩).1 (Or.inr (Or.inr rfl))
  · exact (load_settings_total_spec
      ⟨none, .json (AppSettings.toJson (default_settings (some "pc"))), true⟩).2.2
      _ _ rfl (fromJson_toJson _)

/-- A successful `update_settings f` returned exactly
`f (load_settings previous)` and wrote it, so loading afterwards reads
it back. -/
theorem update_settings_ok (f : AppSettings → AppSettings) (env : Env)
    (d : AppSettings) (env2 : Env) (h : update_settings f env = .ok (d, env2)) :
    d = f (load_settings env) ∧ load_settings env2 = f (load_settings env) := by
  unfold update_settings save_settings at h
  by_cases hw : env.writeOk
  · simp only [hw, if_true] at h
    obtain ⟨hd, henv⟩ := by
      have := h
      simp only [Except.ok.injEq, Prod.mk.injEq] at this
      exact this
    refine ⟨hd.symm, ?_⟩
    subst henv
    simp [load_settings, readParse, fromJson_toJson, hd]
  · simp [hw] at h

/-- C2: a successful `update_settings f` returns exactly
`f (load_settings previous)`, and a subsequent `load_settings` returns
that same document. -/
theorem update_settings_roundtrip (f : AppSettings → AppSettings) (env : Env)
    (d : AppSettings) (env2 : Env) (h : update_settings f env = .ok (d, env2)) :
    d = f (load_settings env) ∧ load_settings env2 = f (load_settings env) :=
  update_settings_ok f env d env2 h

/-- Witness for C2: flipping `headless` on a concrete environment. -/
theorem update_settings_roundtrip_witness :
    update_settings (fun s => { s with headless := false }) ⟨none, .absent, true⟩ =
      .ok ({ default_settings none with headless := false },
           ⟨none, .json (AppSettings.toJson { default_settings none with headless := false }),
            true⟩) ∧
    load_settings
      ⟨none, .json (AppSettings.toJson { default_settings none with headless := false }), true⟩ =
      { load_settings ⟨none, .absent, true⟩ with headless := false } := by
  refine ⟨rfl, ?_⟩
  exact (update_settings_roundtrip (fun s => { s with headless := false })
    ⟨none, .absent, true⟩ _ _ rfl).2

/-- C7: if `save_settings d` succeeds then `load_settings` afterwards
returns a document equal to `d` field-for-field. -/
theorem save_then_load_roundtrip (d : AppSettings) (env env2 : Env)
    (h : save_settings d env = .ok env2) : load_settings env2 = d := by
  unfold save_settings at h
  by_cases hw : env.writeOk
  · simp only [hw, if_true, Except.ok.injEq] at h
    subst h
    simp [load_settings, readParse, fromJson_toJson]
  · simp [hw] at h

/-- Witness for C7 at a concrete document with unusual field values. -/
theorem save_then_load_roundtrip_witness :
    save_settings ⟨"http://x/y?z=1", "host \"q\"", false, false, true, true⟩
        ⟨some "h", .notJson, true⟩ =
      .ok ⟨some "h",
           .json (AppSettings.toJson ⟨"http://x/y?z=1", "host \"q\"", false, false, true, true⟩),
           true⟩ ∧
    load_settings
      ⟨some "h",
       .json (AppSettings.toJson ⟨"http://x/y?z=1", "host \"q\"", false, false, true, true⟩),
       true⟩ = ⟨"http://x/y?z=1", "host \"q\"", false, false, true, true⟩ := by
  refine ⟨rfl, ?_⟩
  exact save_then_load_roundtrip _ ⟨some "h", .notJson, true⟩ _ rfl

/-- Looking up a pair in a table from which it was filtered out finds
nothing. -/
theorem lookup_filter_ne {α β : Type} [BEq α] [LawfulBEq α] (k : α)
    (l : List (α × β)) :
    (l.filter (fun e => !(e.1 == k))).lookup k = none := by
  induction l with
  | nil => rfl
  | cons e rest ih =>
      by_cases he : e.1 = k
      · simp [List.filter, he, ih]
      · have hne : (e.1 == k) = false := beq_eq_false_iff_ne.mpr he
        have hne2 : (k == e.1) = false :=
          beq_eq_false_iff_ne.mpr (fun hk => he hk.symm)
        simp [List.filter, hne, List.lookup, hne2, ih]

/-- C5: `save_api_key` rejects every key that does not start with
`"bsr_"` with the fixed validation error, and for every key with the
prefix it writes the key to the secret store under the fixed
(service, account) pair, overwriting any existing value (whenever the
backend is reachable at all). -/
theorem save_api_key_prefix_validation (key : String) (kc : Keychain) :
    (rustStartsWith key "bsr_" = false →
      save_api_key key kc = .error "API key must start with 'bsr_'") ∧
    (rustStartsWith key "bsr_" = true → kc.accessOk = true →
      save_api_key key kc = .ok (kcInsert kc SERVICE_NAME API_KEY_ACCOUNT key) ∧
      ∀ kc2, save_api_key key kc = .ok kc2 →
        kcLookup kc2 SERVICE_NAME API_KEY_ACCOUNT = some key) := by
  constructor
  · intro h
    simp [save_api_key, h]
  · intro hpre hacc
    have hsave : save_api_key key kc = .ok (kcInsert kc SERVICE_NAME API_KEY_ACCOUNT key) := by
      simp [save_api_key, hpre, store_api_key, hacc, Except.mapError]
    refine ⟨hsave, ?_⟩
    intro kc2 h2
    rw [hsave] at h2
    obtain rfl : kcInsert kc SERVICE_NAME API_KEY_ACCOUNT key = kc2 := by
      simpa using h2
    simp [kcLookup, kcInsert, List.lookup]

/-- Witness for C5: `"abc123"` is rejected, `"bsr_abc123"` is stored. -/
theorem save_api_key_prefix_validation_witness :
    save_api_key "abc123" ⟨[], true⟩ = .error "API key must start with 'bsr_'" ∧
    save_api_key "bsr_abc123" ⟨[((SERVICE_NAME, API_KEY_ACCOUNT), "bsr_old")], true⟩ =
      .ok (kcInsert ⟨[((SERVICE_NAME, API_KEY_ACCOUNT), "bsr_old")], true⟩
        SERVICE_NAME API_KEY_ACCOUNT "bsr_abc123") ∧
    kcLookup (kcInsert ⟨[((SERVICE_NAME, API_KEY_ACCOUNT), "bsr_old")], true⟩
        SERVICE_NAME API_KEY_ACCOUNT "bsr_abc123") SERVICE_NAME API_KEY_ACCOUNT =
      some "bsr_abc123" := by
  refine ⟨(save_api_key_prefix_validation "abc123" ⟨[], true⟩).1 (by decide), ?_, ?_⟩
  · exact ((save_api_key_prefix_validation "bsr_abc123"
      ⟨[((SERVICE_NAME, API_KEY_ACCOUNT), "bsr_old")], true⟩).2 (by decide) rfl).1
  · exact ((save_api_key_prefix_validation "bsr_abc123"
      ⟨[((SERVICE_NAME, API_KEY_ACCOUNT), "bsr_old")], true⟩).2 (by decide) rfl).2 _
      ((save_api_key_prefix_validation "bsr_abc123"
        ⟨[((SERVICE_NAME, API_KEY_ACCOUNT), "bsr_old")], true⟩).2 (by decide) rfl).1

/-- C9: `has_api_key` is true exactly when `get_api_key` succeeds; it
is false immediately after a successful delete and true immediately
after a successful store. -/
theorem has_api_key_iff_get_ok (kc : Keychain) :
    (has_api_key kc = (get_api_key kc).isOk) ∧
    (∀ kc2, delete_api_key kc = .ok kc2 → has_api_key kc2 = false) ∧
    (∀ key kc2, store_api_key key kc = .ok kc2 → has_api_key kc2 = true) := by
  refine ⟨rfl, ?_, ?_⟩
  · intro kc2 h
    unfold delete_api_key at h
    by_cases hacc : kc.accessOk
    · simp only [hacc, if_true] at h
      cases hlk : kcLookup kc SERVICE_NAME API_KEY_ACCOUNT with
      | none => rw [hlk] at h; cases h
      | some v =>
          rw [hlk] at h
          obtain rfl : kcRemove kc SERVICE_NAME API_KEY_ACCOUNT = kc2 := by simpa using h
          have hnone : kcLookup (kcRemove kc SERVICE_NAME API_KEY_ACCOUNT)
              SERVICE_NAME API_KEY_ACCOUNT = none := by
            simpa [kcLookup, kcRemove] using
              lookup_filter_ne (SERVICE_NAME, API_KEY_ACCOUNT) kc.entries
          have hacc2 : (kcRemove kc SERVICE_NAME API_KEY_ACCOUNT).accessOk = true := by
            simpa [kcRemove] using hacc
          simp [has_api_key, get_api_key, hacc2, hnone, Except.isOk, Except.toBool]
    · simp [hacc] at h
  · intro key kc2 h
    unfold store_api_key at h
    by_cases hacc : kc.accessOk
    · simp only [hacc, if_true] at h
      obtain rfl : kcInsert kc SERVICE_NAME API_KEY_ACCOUNT key = kc2 := by simpa using h
      simp [has_api_key, get_api_key, kcInsert, kcLookup, List.lookup, hacc,
        Except.isOk, Except.toBool]
    · simp [hacc] at h

/-- Witness for C9 on a concrete keychain holding one entry. -/
theorem has_api_key_iff_get_ok_witness :
    delete_api_key ⟨[((SERVICE_NAME, API_KEY_ACCOUNT), "bsr_k")], true⟩ =
      .ok (kcRemove ⟨[((SERVICE_NAME, API_KEY_ACCOUNT), "bsr_k")], true⟩
        SERVICE_NAME API_KEY_ACCOUNT) ∧
    has_api_key (kcRemove ⟨[((SERVICE_NAME, API_KEY_ACCOUNT), "bsr_k")], true⟩
      SERVICE_NAME API_KEY_ACCOUNT) = false ∧
    store_api_key "bsr_k" ⟨[], true⟩ =
      .ok (kcInsert ⟨[], true⟩ SERVICE_NAME API_KEY_ACCOUNT "bsr_k") ∧
    has_api_key (kcInsert ⟨[], true⟩ SERVICE_NAME API_KEY_ACCOUNT "bsr_k") = true := by
  refine ⟨rfl, ?_, rfl, ?_⟩
  · exact (has_api_key_iff_get_ok
      ⟨[((SERVICE_NAME, API_KEY_ACCOUNT), "bsr_k")], true⟩).2.1 _ rfl
  · exact (has_api_key_iff_get_ok ⟨[], true⟩).2.2 "bsr_k" _ rfl

/-- C10: a successful `save_settings` command overwrites only the four
editable fields; the persisted `first_run_complete` and
`chromium_installed` flags keep the value loaded immediately before
the call. -/
theorem save_settings_cmd_frame (st : Settings) (env env2 : Env)
    (h : save_settings_cmd st env = .ok env2) :
    (load_settings env2).first_run_complete = (load_settings env).first_run_complete ∧
    (load_settings env2).chromium_installed = (load_settings env).chromium_installed ∧
    (load_settings env2).api_url = st.api_url ∧
    (load_settings env2).runner_name = st.runner_name ∧
    (load_settings env2).headless = st.headless ∧
    (load_settings env2).auto_update = st.auto_update := by
  unfold save_settings_cmd at h
  cases hu : update_settings (fun s =>
      { s with api_url := st.api_url, runner_name := st.runner_name,
               headless := st.headless, auto_update := st.auto_update }) env with
  | error e => rw [hu] at h; cases h
  | ok p =>
      rw [hu] at h
      obtain rfl : p.2 = env2 := by simpa using h
      have hrt := update_settings_ok _ env p.1 p.2 (by rw [hu])
      rw [hrt.2]
      exact ⟨rfl, rfl, rfl, rfl, rfl, rfl⟩

/-- Witness for C10 on a concrete environment whose persisted flags are
both true. -/
theorem save_settings_cmd_frame_witness :
    save_settings_cmd ⟨"http://new", "runner-2", false, false⟩
        ⟨none, .json (AppSettings.toJson ⟨"http://old", "runner-1", true, true, true, true⟩),
         true⟩ =
      .ok ⟨none,
           .json (AppSettings.toJson ⟨"http://new", "runner-2", false, false, true, true⟩),
           true⟩ ∧
    (load_settings
        ⟨none,
         .json (AppSettings.toJson ⟨"http://new", "runner-2", false, false, true, true⟩),
         true⟩).first_run_complete =
      (load_settings
        ⟨none, .json (AppSettings.toJson ⟨"http://old", "runner-1", true, true, true, true⟩),
         true⟩).first_run_complete ∧
    (load_settings
        ⟨none,
         .json (AppSettings.toJson ⟨"http://new", "runner-2", false, false, true, true⟩),
         true⟩).chromium_installed =
      (load_settings
        ⟨none, .json (AppSettings.toJson ⟨"http://old", "runner-1", true, true, true, true⟩),
         true⟩).chromium_installed := by
  refine ⟨rfl, ?_, ?_⟩
  · exact (save_settings_cmd_frame ⟨"http://new", "runner-2", false, false⟩
      ⟨none, .json (AppSettings.toJson ⟨"http://old", "runner-1", true, true, true, true⟩),
       true⟩ _ rfl).1
  · exact (save_settings_cmd_frame ⟨"http://new", "runner-2", false, false⟩
      ⟨none, .json (AppSettings.toJson ⟨"http://old", "runner-1", true, true, true, true⟩),
       true⟩ _ rfl).2.1

/-- C6: `check_chromium_installed` is true exactly when the persisted
flag is true, the directory exists, and it has at least one entry; in
particular a true flag with a missing, unreadable, or empty directory
yields false. -/
theorem check_chromium_installed_iff (env : Env) (dir : DirState) :
    (check_chromium_installed env dir = true ↔
      (load_settings env).chromium_installed = true ∧
        ∃ n : Nat, dir = .withEntries (n + 1)) ∧
    check_chromium_installed env .missing = false ∧
    check_chromium_installed env .unreadable = false ∧
    check_chromium_installed env (.withEntries 0) = false := by
  refine ⟨?_, ?_, ?_, ?_⟩
  · constructor
    · intro h
      unfold check_chromium_installed at h
      by_cases hflag : (load_settings env).chromium_installed
      · refine ⟨hflag, ?_⟩
        simp only [hflag, Bool.not_true, if_false] at h
        cases dir with
        | missing => cases h
        | unreadable => cases h
        | withEntries n =>
            cases n with
            | zero => simp at h
            | succ m => exact ⟨m, rfl⟩
      · simp [hflag] at h
    · rintro ⟨hflag, n, rfl⟩
      simp [check_chromium_installed, hflag]
  · simp [check_chromium_installed]
  · simp [check_chromium_installed]
  · simp [check_chromium_installed]

/-- Witness for C6: flag persisted true but directory missing or empty
gives false; flag true with one entry gives true. -/
theorem check_chromium_installed_iff_witness :
    check_chromium_installed
      ⟨none, .json (AppSettings.toJson ⟨"u", "r", true, true, true, true⟩), true⟩
      .missing = false ∧
    check_chromium_installed
      ⟨none, .json (AppSettings.toJson ⟨"u", "r", true, true, true, true⟩), true⟩
      (.withEntries 0) = false ∧
    check_chromium_installed
      ⟨none, .json (AppSettings.toJson ⟨"u", "r", true, true, true, true⟩), true⟩
      (.withEntries 1) = true := by
  refine ⟨?_, ?_, ?_⟩
  · exact (check_chromium_installed_iff
      ⟨none, .json (AppSettings.toJson ⟨"u", "r", true, true, true, true⟩), true⟩
      .missing).2.1
  · exact (check_chromium_installed_iff
      ⟨none, .json (AppSettings.toJson ⟨"u", "r", true, true, true, true⟩), true⟩
      (.withEntries 0)).2.2.2
  · exact (check_chromium_installed_iff
      ⟨none, .json (AppSettings.toJson ⟨"u", "r", true, true, true, true⟩), true⟩
      (.withEntries 1)).1.mpr ⟨rfl, 0, rfl⟩

/-- C8 (code bug): evaluating `run_scraper` at a concrete invocation
shows it returns the hard-coded mock result — success flag `true`,
`products_found` = number of SKUs, no errors, one fixed log line —
irrespective of anything the external scraping subsystem would report,
contradicting the claim that the subsystem's reported outcome is
returned. -/
theorem run_scraper_mock_eval :
    run_scraper "petfoodex" ["SKU-A", "SKU-B"] ⟨none, .absent, true⟩ ⟨[], true⟩ =
      .ok { success := true, products_found := 2, errors := [],
            logs := ["Scraper started"] } := rfl

/-- Streamed events are never terminal: every event the line loop emits
has status `"downloading"`. -/
theorem stream_events_filter_terminal (p : Nat) (lines : List String) :
    (stream_events p lines).filter isTerminal = [] := by
  induction lines generalizing p with
  | nil => rfl
  | cons l ls ih =>
      have hterm : isTerminal ⟨progress_update l p, "downloading", l⟩ = false := rfl
      simp [stream_events, List.filter, hterm, ih]

/-- The line loop emits exactly one event per line. -/
theorem stream_events_length (p : Nat) (lines : List String) :
    (stream_events p lines).length = lines.length := by
  induction lines generalizing p with
  | nil => rfl
  | cons l ls ih => simp [stream_events, ih]

/-- The i-th streamed event carries the raw i-th line and the estimate
current after folding the update over the lines so far. -/
theorem stream_events_get (p : Nat) (lines : List String) (i : Nat)
    (h : i < lines.length) (h2 : i < (stream_events p lines).length) :
    (stream_events p lines).get ⟨i, h2⟩ =
      ⟨progress_after p (lines.take (i + 1)), "downloading", lines.get ⟨i, h⟩⟩ := by
  induction lines generalizing p i with
  | nil => cases h
  | cons l ls ih =>
      cases i with
      | zero => simp [stream_events, progress_after]
      | succ j =>
          have hj : j < ls.length := Nat.lt_of_succ_lt_succ h
          have hj2 : j < (stream_events (progress_update l p) ls).length := by
            rw [stream_events_length]; exact hj
          simpa [stream_events, progress_after] using
            ih (progress_update l p) j hj hj2

/-- The last element of a nonempty list ending in a singleton. -/
theorem getLast?_cons_append_singleton {α : Type} (x : α) (l : List α) (t : α) :
    (x :: (l ++ [t])).getLast? = some t := by
  rw [show x :: (l ++ [t]) = (x :: l) ++ (t :: []) from rfl,
    List.getLast?_append_cons]
  rfl

/-- C3 counterexample: on the line `"Installing 1a%"` (which contains
`'%'` but no parseable percentage token, and contains `"Installing"`),
the code leaves the estimate unchanged, while the claim's case chain
sets it to 95: containing `'%'` masks the `Extracting`/`Installing`
case even when percentage extraction fails. -/
theorem progress_update_claim_counterexample :
    progress_update "Installing 1a%" 42 = 42 ∧
    progress_update_claimed "Installing 1a%" 42 = 95 ∧
    progress_update "Installing 1a%" 42 ≠ progress_update_claimed "Installing 1a%" 42 := by
  decide

/-- C3 (amended): per output line — `"Downloading"` gives 10; otherwise
a line containing `"%"` gives `min 90 (10 + ⌊0.8·pct⌋)` when a
whitespace token ending in `'%'` parses, and leaves the estimate
unchanged when none does (`Extracting`/`Installing` are not consulted);
otherwise `"Extracting"`/`"Installing"` give 95; any other line leaves
the estimate unchanged.  Every line is emitted as one
`"downloading"`-status event carrying the raw line and the estimate
current after that line. -/
theorem progress_update_characterization :
    (∀ line p,
      (hasSubstr line "Downloading" = true → progress_update line p = 10) ∧
      (hasSubstr line "Downloading" = false → hasSubstr line "%" = true →
        ∀ pct, extract_percentage line = some pct →
          progress_update line p = min (10 + 4 * pct / 5) 90) ∧
      (hasSubstr line "Downloading" = false → hasSubstr line "%" = true →
        extract_percentage line = none → progress_update line p = p) ∧
      (hasSubstr line "Downloading" = false → hasSubstr line "%" = false →
        (hasSubstr line "Extracting" || hasSubstr line "Installing") = true →
        progress_update line p = 95) ∧
      (hasSubstr line "Downloading" = false → hasSubstr line "%" = false →
        (hasSubstr line "Extracting" || hasSubstr line "Installing") = false →
        progress_update line p = p)) ∧
    (∀ p lines, (stream_events p lines).length = lines.length ∧
      ∀ i (h : i < lines.length) (h2 : i < (stream_events p lines).length),
        (stream_events p lines).get ⟨i, h2⟩ =
          ⟨progress_after p (lines.take (i + 1)), "downloading", lines.get ⟨i, h⟩⟩) := by
  constructor
  · intro line p
    refine ⟨?_, ?_, ?_, ?_, ?_⟩
    · intro hD
      simp [progress_update, hD]
    · intro hD hP pct hext
      simp [progress_update, hD, hP, hext]
    · intro hD hP hext
      simp [progress_update, hD, hP, hext]
    · intro hD hP hEI
      simp [progress_update, hD, hP, hEI]
    · intro hD hP hEI
      simp [progress_update, hD, hP, hEI]
  · intro p lines
    exact ⟨stream_events_length p lines, fun i h h2 => stream_events_get p lines i h h2⟩

/-- Witness for C3 (amended) at the spec's own example lines. -/
theorem progress_update_characterization_witness :
    progress_update "Downloading update" 3 = 10 ∧
    progress_update "50% done" 3 = 50 ∧
    progress_update "Extracting files" 7 = 95 ∧
    (stream_events 0 ["Downloading update", "50% done"]).get ⟨1, by decide⟩ =
      ⟨50, "downloading", "50% done"⟩ := by
  refine ⟨?_, ?_, ?_, ?_⟩
  · exact (progress_update_characterization.1 "Downloading update" 3).1 (by decide)
  · have h := (progress_update_characterization.1 "50% done" 3).2.1
      (by decide) (by decide) 50 (by decide)
    simpa using h
  · exact (progress_update_characterization.1 "Extracting files" 7).2.2.2.1
      (by decide) (by decide) (by decide)
  · have h := (progress_update_characterization.2 0 ["Downloading update", "50% done"]).2
      1 (by decide) (by decide)
    rw [h]
    decide

/-- C4 counterexample: a run whose child was spawned and exited with
status zero, but whose settings write fails, ends with NO terminal
event and an error return — contradicting the claim that every spawned
run's event sequence ends in exactly one terminal event and that zero
exit persists the flag, emits `complete`, and returns success. -/
theorem install_chromium_claim_counterexample :
    (install_chromium ⟨none, .absent, false⟩ true true [] true true).2.isOk = false ∧
    (install_chromium ⟨none, .absent, false⟩ true true [] true true).1.filter isTerminal
      = [] := by
  decide

/-- C4 (amended): for every run whose child was spawned and whose exit
status was observed — on zero exit, if persisting the flag succeeds the
event sequence ends with exactly one terminal event, `complete` with
progress 100, the command returns success and `chromium_installed` is
persisted true; if persisting fails, no terminal event is emitted and
the command returns that error; on non-zero exit the sequence ends with
exactly one terminal event, `error` with progress 0 and the fixed
failure message, and the command returns an error. -/
theorem install_chromium_terminal_events (env : Env) (lines : List String)
    (exitSuccess : Bool) :
    (exitSuccess = true → env.writeOk = true →
      (install_chromium env true true lines true exitSuccess).1.filter isTerminal =
        [⟨100, "complete", "Chromium installed successfully!"⟩] ∧
      (install_chromium env true true lines true exitSuccess).1.getLast? =
        some ⟨100, "complete", "Chromium installed successfully!"⟩ ∧
      ∃ env2, (install_chromium env true true lines true exitSuccess).2 = .ok env2 ∧
        (load_settings env2).chromium_installed = true) ∧
    (exitSuccess = true → env.writeOk = false →
      (install_chromium env true true lines true exitSuccess).1.filter isTerminal = [] ∧
      (install_chromium env true true lines true exitSuccess).2 =
        .error "Failed to write settings") ∧
    (exitSuccess = false →
      (install_chromium env true true lines true exitSuccess).1.filter isTerminal =
        [⟨0, "error", "Chromium installation failed"⟩] ∧
      (install_chromium env true true lines true exitSuccess).1.getLast? =
        some ⟨0, "error", "Chromium installation failed"⟩ ∧
      (install_chromium env true true lines true exitSuccess).2 =
        .error "Chromium installation failed") := by
  have hstart : isTerminal ⟨0, "starting", "Starting Chromium download..."⟩ = false := rfl
  have hcomp : isTerminal ⟨100, "complete", "Chromium installed successfully!"⟩ = true := rfl
  have herr : isTerminal ⟨0, "error", "Chromium installation failed"⟩ = true := rfl
  refine ⟨?_, ?_, ?_⟩
  · intro hx hw
    subst hx
    have hins : install_chromium env true true lines true true =
        ((⟨0, "starting", "Starting Chromium download..."⟩ :: stream_events 0 lines) ++
           [⟨100, "complete", "Chromium installed successfully!"⟩],
         .ok { env with file := .json (AppSettings.toJson
             { load_settings env with chromium_installed := true }) }) := by
      simp [install_chromium, update_settings, save_settings, hw]
    rw [hins]
    refine ⟨?_, ?_, ?_⟩
    · simp [List.filter_append, List.filter, hstart, hcomp,
        stream_events_filter_terminal]
    · exact getLast?_cons_append_singleton _ _ _
    · refine ⟨_, rfl, ?_⟩
      simp [load_settings, readParse, fromJson_toJson]
  · intro hx hw
    subst hx
    have hins : install_chromium env true true lines true true =
        (⟨0, "starting", "Starting Chromium download..."⟩ :: stream_events 0 lines,
         .error "Failed to write settings") := by
      simp [install_chromium, update_settings, save_settings, hw]
    rw [hins]
    exact ⟨by simp [List.filter, hstart, stream_events_filter_terminal], rfl⟩
  · intro hx
    subst hx
    have hins : install_chromium env true true lines true false =
        ((⟨0, "starting", "Starting Chromium download..."⟩ :: stream_events 0 lines) ++
           [⟨0, "error", "Chromium installation failed"⟩],
         .error "Chromium installation failed") := by
      simp [install_chromium]
    rw [hins]
    refine ⟨?_, ?_, rfl⟩
    · simp [List.filter_append, List.filter, hstart, herr,
        stream_events_filter_terminal]
    · exact getLast?_cons_append_singleton _ _ _

/-- Witness for C4 (amended) at concrete runs. -/
theorem install_chromium_terminal_events_witness :
    (install_chromium ⟨none, .absent, true⟩ true true ["Downloading x"] true true).1.filter
      isTerminal = [⟨100, "complete", "Chromium installed successfully!"⟩] ∧
    (∃ env2,
      (install_chromium ⟨none, .absent, true⟩ true true ["Downloading x"] true true).2 =
        .ok env2 ∧ (load_settings env2).chromium_installed = true) ∧
    (install_chromium ⟨none, .absent, true⟩ true true [] true false).1.filter isTerminal =
      [⟨0, "error", "Chromium installation failed"⟩] ∧
    (install_chromium ⟨none, .absent, true⟩ true true [] true false).2 =
      .error "Chromium installation failed" := by
  refine ⟨?_, ?_, ?_, ?_⟩
  · exact ((install_chromium_terminal_events ⟨none, .absent, true⟩ ["Downloading x"]
      true).1 rfl rfl).1
  · exact ((install_chromium_terminal_events ⟨none, .absent, true⟩ ["Downloading x"]
      true).1 rfl rfl).2.2
  · exact ((install_chromium_terminal_events ⟨none, .absent, true⟩ [] false).2.2 rfl).1
  · exact ((install_chromium_terminal_events ⟨none, .absent, true⟩ [] false).2.2 rfl).2.2
